import Mathlib

/-!
# Verification of `scripts/compare_gas_vs_analist.py`

A shallow embedding of the CSV-vs-JSON reconciliation script and proofs of
the specification claims about it.

Modelling conventions:
* Python values reachable in the script (JSON scalars, strings, lists,
  dicts, `None`) are the inductive type `PyJ`; dicts are association lists
  with unique keys looked up by first occurrence, matching Python dict
  access.
* Python `str()` / `repr()` are modelled for the value forms above; the
  quote-escaping of `repr` on strings that themselves contain quotes, and
  Unicode-aware case folding, are not modelled (no claim depends on them;
  `lower`/`strip` are ASCII, as all compared data is).
* A Python `set` built from a generator is modelled as the input list
  deduplicated keeping first occurrences: a deterministic stand-in for the
  hash-ordered set that preserves exactly the properties the claims use
  (membership, cardinality, and stability when an already-present element
  is inserted again, which is a no-op on a CPython set).
-/

set_option autoImplicit false

namespace CompareGas

/-- Python values flowing through the script: `None`, booleans, strings,
integers, lists and dicts (as association lists). -/
inductive PyJ where
  | null
  | jbool (b : Bool)
  | jstr (s : String)
  | jint (n : Int)
  | jlist (l : List PyJ)
  | jdict (d : List (String × PyJ))

/-- A row: a field-name-to-value mapping (CSV `DictReader` row or JSON
object). -/
abbrev Row := List (String × PyJ)

/-- The single quote character, used by Python `repr` of strings. -/
def squote : String := String.singleton (Char.ofNat 39)

mutual

/-- Python `repr()` restricted to the value forms above (string escaping not
modelled). -/
def pyRepr : PyJ → String
  | .null => "None"
  | .jbool b => if b then "True" else "False"
  | .jstr s => squote ++ s ++ squote
  | .jint n => toString n
  | .jlist l => "[" ++ String.intercalate ", " (pyReprList l) ++ "]"
  | .jdict d => "\x7b" ++ String.intercalate ", " (pyReprDict d) ++ "\x7d"

/-- `repr` of each element of a list. -/
def pyReprList : List PyJ → List String
  | [] => []
  | x :: xs => pyRepr x :: pyReprList xs

/-- `repr` of each `key: value` entry of a dict. -/
def pyReprDict : List (String × PyJ) → List String
  | [] => []
  | (k, v) :: xs => (squote ++ k ++ squote ++ ": " ++ pyRepr v) :: pyReprDict xs

end

/-- Python `str()`: the string itself for strings, `repr` otherwise (which
agrees with `str` on `None`, booleans, integers, lists and dicts). -/
def pyStr : PyJ → String
  | .jstr s => s
  | v => pyRepr v

/-- Characters removed by Python `str.strip()` (the ASCII whitespace set;
compared data contains no exotic Unicode spaces). -/
def isPySpace (c : Char) : Bool :=
  c = ' ' || c = '\t' || c = '\n' || c = '\r' || c = Char.ofNat 11 || c = Char.ofNat 12

/-- Python `str.strip()`: drop leading and trailing whitespace. -/
def pyStrip (s : String) : String :=
  String.mk (((s.data.dropWhile isPySpace).reverse.dropWhile isPySpace).reverse)

/-- Python `str.lower()` (ASCII case folding). -/
def pyLower (s : String) : String :=
  String.mk (s.data.map Char.toLower)

/-- The values `norm_bool` / `norm_str` can produce: a Python `bool` or a
Python `str`.  Equality on this type agrees with Python `==` on that
universe (a bool never equals a string). -/
inductive NVal where
  | nbool (b : Bool)
  | nstr (s : String)
deriving DecidableEq, Repr

/-- `norm_bool` from the script: booleans pass through, `None` becomes
`False`, otherwise the stripped lower-cased string form is matched against
the recognized true/false spellings, and an unrecognized value yields that
stripped lower-cased string (`return s`). -/
def norm_bool (v : PyJ) : NVal :=
  match v with
  | .jbool b => NVal.nbool b
  | .null => NVal.nbool false
  | _ =>
    let s := pyLower (pyStrip (pyStr v))
    if s = "true" ∨ s = "yes" ∨ s = "1" then NVal.nbool true
    else if s = "false" ∨ s = "no" ∨ s = "0" ∨ s = "" then NVal.nbool false
    else NVal.nstr s

/-- `norm_str` from the script: `None` becomes the empty string, everything
else is cast with `str()`. -/
def norm_str (v : PyJ) : String :=
  match v with
  | .null => ""
  | _ => pyStr v

/-- The key priority list hard-coded in `load_json_first_array`. -/
def jsonArrayKeys : List String :=
  ["data", "tasks", "sessions", "subjects", "categories"]

/-- The `for key in [...]` loop of `load_json_first_array`: each iteration
checks `isinstance(data, dict) and key in data and isinstance(data[key], list)`
and returns `data[key]` on success. -/
def loadLoop (data : PyJ) : List String → Option (List PyJ)
  | [] => Option.none
  | k :: ks =>
    match data with
    | PyJ.jdict d =>
      match d.lookup k with
      | some (PyJ.jlist l) => some l
      | _ => loadLoop data ks
    | _ => loadLoop data ks

/-- `load_json_first_array` from the script, applied to the parsed JSON
document: prefer the first recognized dict key holding a list, fall back to
a root-level list, and yield `[]` otherwise. -/
def load_json_first_array (data : PyJ) : List PyJ :=
  match loadLoop data jsonArrayKeys with
  | some l => l
  | Option.none =>
    match data with
    | PyJ.jlist l => l
    | _ => []

/-- Python truthiness of the modelled values (`any(r.values())` uses it):
`None` and `False` are falsy, strings/lists/dicts are falsy iff empty,
integers are falsy iff zero. -/
def truthy : PyJ → Bool
  | .null => false
  | .jbool b => b
  | .jstr s => !s.isEmpty
  | .jint n => n != 0
  | .jlist l => !l.isEmpty
  | .jdict d => !d.isEmpty

/-- `any(r.values())`: the row has at least one truthy raw value. -/
def rowNonEmpty (r : Row) : Bool :=
  r.any (fun p => truthy p.2)

/-- `isinstance(r, dict)` as a partial projection: the row when the JSON
entry is a dict, `none` otherwise. -/
def asDictRow : PyJ → Option Row
  | .jdict d => some d
  | _ => Option.none

/-- A normalized comparison tuple: the `tuple(items)` built by
`row_to_tuple`, a sequence of `(out_key, normalized value)` pairs. -/
abbrev Tup := List (String × NVal)

/-- One iteration of the `for out_key, src_key in mapping.items()` loop of
`row_to_tuple`: skip ignored output keys, read the source key with default
`''`, and normalize with `norm_bool` exactly for the `active` output key,
`norm_str` otherwise.  The `is_csv` flag selects between two identical
`row.get(src_key, "")` reads in the source. -/
def tupleEntry (ignore_fields : List String) (row : Row) (is_csv : Bool)
    (p : String × String) : Option (String × NVal) :=
  if p.1 ∈ ignore_fields then Option.none
  else
    let val := if is_csv then (row.lookup p.2).getD (PyJ.jstr "")
               else (row.lookup p.2).getD (PyJ.jstr "")
    if p.1 = "active" then some (p.1, norm_bool val)
    else some (p.1, NVal.nstr (norm_str val))

/-- `row_to_tuple` from the script (the closure inside `compare_sets`,
with its captured `ignore_fields` made explicit). -/
def row_to_tuple (ignore_fields : List String) (row : Row)
    (mapping : List (String × String)) (is_csv : Bool) : Tup :=
  mapping.filterMap (tupleEntry ignore_fields row is_csv)

/-- Deduplication keeping first occurrences: the model of building a Python
`set` from a generator (see the header comment). -/
def dedupF {α : Type} [DecidableEq α] : List α → List α
  | [] => []
  | x :: xs => x :: (dedupF xs).filter (fun y => decide (y ≠ x))

/-- `csv_set` of `compare_sets`: normalized tuples of the non-empty CSV
rows, as a set. -/
def csvSet (ignore_fields : List String) (field_map : List (String × String))
    (csv_rows : List Row) : List Tup :=
  dedupF ((csv_rows.filter rowNonEmpty).map
    (fun r => row_to_tuple ignore_fields r field_map true))

/-- `gas_set` of `compare_sets`: normalized tuples of the JSON entries that
are dicts and non-empty, as a set. -/
def gasSet (ignore_fields : List String) (field_map : List (String × String))
    (gas_rows : List PyJ) : List Tup :=
  dedupF ((((gas_rows.filterMap asDictRow).filter rowNonEmpty)).map
    (fun r => row_to_tuple ignore_fields r field_map false))

/-- Set difference `a - b` on the list-modelled sets. -/
def onlyIn (a b : List Tup) : List Tup :=
  a.filter (fun t => decide (t ∉ b))

/-- Python `repr` of one `(out_key, value)` pair of a tuple. -/
def reprPair (p : String × NVal) : String :=
  "(" ++ squote ++ p.1 ++ squote ++ ", "
    ++ (match p.2 with
        | NVal.nbool b => if b then "True" else "False"
        | NVal.nstr s => squote ++ s ++ squote)
    ++ ")"

/-- Python `repr` of a tuple from its elements (singleton tuples get the
trailing comma). -/
def reprPyTuple (elems : List String) : String :=
  match elems with
  | [] => "()"
  | [x] => "(" ++ x ++ ",)"
  | _ => "(" ++ String.intercalate ", " elems ++ ")"

/-- The f-string rendering of `list(only_in_x)[:3]`: a Python list of
normalized tuples. -/
def reprSample (l : List Tup) : String :=
  "[" ++ String.intercalate ", " (l.map (fun t => reprPyTuple (t.map reprPair))) ++ "]"

/-- `compare_sets` from the script, purified: it returns the report lines it
appends to the global `report_lines` accumulator for one table. -/
def compare_sets (name : String) (csv_rows : List Row) (gas_rows : List PyJ)
    (field_map : List (String × String)) (ignore_fields : List String) : List String :=
  let csv_set := csvSet ignore_fields field_map csv_rows
  let gas_set := gasSet ignore_fields field_map gas_rows
  let only_in_csv := onlyIn csv_set gas_set
  let only_in_gas := onlyIn gas_set csv_set
  ["== " ++ name ++ " ==",
   "CSV count: " ++ toString csv_set.length ++ ", GAS count: " ++ toString gas_set.length]
  ++ (if only_in_csv.isEmpty && only_in_gas.isEmpty then
        ["MATCH: Data sets are identical (for compared fields)."]
      else
        (if !only_in_csv.isEmpty then
          ["Only in CSV (" ++ toString only_in_csv.length ++ "): sample -> "
            ++ reprSample (only_in_csv.take 3)]
         else [])
        ++ (if !only_in_gas.isEmpty then
          ["Only in GAS (" ++ toString only_in_gas.length ++ "): sample -> "
            ++ reprSample (only_in_gas.take 3)]
         else []))
  ++ [""]

/-- The field map passed for the Subjects table. -/
def subjects_field_map : List (String × String) :=
  [("subject_name", "subject_name"), ("color", "color"),
   ("icon", "icon"), ("active", "active")]

/-- The field map passed for the Categories table. -/
def categories_field_map : List (String × String) :=
  [("category_name", "category_name"), ("subject_name", "subject_name"),
   ("difficulty", "difficulty"), ("active", "active")]

/-- `study_tasks_field_map` from the script. -/
def study_tasks_field_map : List (String × String) :=
  [("task_id", "task_id"), ("task_name", "task_name"),
   ("description", "description"), ("categories", "categories"),
   ("correctly_completed", "correctly_completed"),
   ("start_time", "start_time"), ("end_time", "end_time"),
   ("W szkole", "W szkole"), ("subject", "subject"),
   ("session_id", "session_id")]

/-- `study_sessions_field_map` from the script (note: no `date` column). -/
def study_sessions_field_map : List (String × String) :=
  [("session_id", "session_id"), ("start_time", "start_time"),
   ("end_time", "end_time"), ("duration_minutes", "duration_minutes"),
   ("total_tasks", "total_tasks"), ("correct_tasks", "correct_tasks"),
   ("accuracy_percentage", "accuracy_percentage"), ("notes", "notes")]

/-- Python dict assignment `r[k] = v` on the association-list model: replace
the value at an existing key in place, append a new entry otherwise. -/
def setItem (r : Row) (k : String) (v : PyJ) : Row :=
  if r.any (fun p => decide (p.1 = k)) then
    r.map (fun p => if p.1 = k then (k, v) else p)
  else r ++ [(k, v)]

/-- Spec-side predicate: the parsed document is a list at the root. -/
def isRootList : PyJ → Bool
  | .jlist _ => true
  | _ => false

/-- Spec-side predicate: the parsed document is a dict containing one of the
recognized keys with a list value. -/
def hasRecognizedListKey : PyJ → Bool
  | .jdict d =>
    jsonArrayKeys.any (fun k =>
      match d.lookup k with
      | some (PyJ.jlist _) => true
      | _ => false)
  | _ => false

/-- The spec's description of the key search: the value of the first key
among the recognized ones whose value in the root dict is a list. -/
def firstListKey (d : List (String × PyJ)) : List String → Option (List PyJ)
  | [] => Option.none
  | k :: ks =>
    match d.lookup k with
    | some (PyJ.jlist l) => some l
    | _ => firstListKey d ks

/-- The loader as the spec words it: the first recognized list-valued key of
a root dict, else the root itself when it is a list, else `[]`. -/
def load_json_first_array_spec (data : PyJ) : List PyJ :=
  match data with
  | PyJ.jdict d => (firstListKey d jsonArrayKeys).getD []
  | PyJ.jlist l => l
  | _ => []

/-- A concrete CSV-style Subjects row used by the witnesses. -/
def csvRowMath : Row :=
  [("subject_name", PyJ.jstr "Math"), ("color", PyJ.jstr "blue"),
   ("icon", PyJ.jstr "calc"), ("active", PyJ.jstr "yes")]

/-- The matching JSON-style Subjects row (boolean `active`). -/
def gasRowMath : Row :=
  [("subject_name", PyJ.jstr "Math"), ("color", PyJ.jstr "blue"),
   ("icon", PyJ.jstr "calc"), ("active", PyJ.jbool true)]

/-- A second, different JSON-style Subjects row. -/
def gasRowPhysics : Row :=
  [("subject_name", PyJ.jstr "Physics"), ("color", PyJ.jstr "red"),
   ("icon", PyJ.jstr "atom"), ("active", PyJ.jbool false)]

/-- A blank row: every raw value is falsy. -/
def blankRow : Row :=
  [("subject_name", PyJ.jstr ""), ("color", PyJ.jstr ""),
   ("icon", PyJ.jstr ""), ("active", PyJ.jstr "")]

/-- A StudySessions CSV row carrying the extra unmapped `date` column. -/
def dateRow : Row :=
  [("session_id", PyJ.jstr "s1"), ("start_time", PyJ.jstr "08:00"),
   ("end_time", PyJ.jstr "09:00"), ("duration_minutes", PyJ.jstr "60"),
   ("total_tasks", PyJ.jstr "5"), ("correct_tasks", PyJ.jstr "4"),
   ("accuracy_percentage", PyJ.jstr "80"), ("notes", PyJ.jstr ""),
   ("date", PyJ.jstr "2024-01-01")]

/-! ## Helper lemmas -/

theorem mem_dedupF {α : Type} [DecidableEq α] (a : α) (l : List α) :
    a ∈ dedupF l ↔ a ∈ l := by
  induction l with
  | nil => simp [dedupF]
  | cons x xs ih =>
    by_cases h : a = x <;> simp [dedupF, List.mem_filter, ih, h]

theorem nodup_dedupF {α : Type} [DecidableEq α] (l : List α) :
    (dedupF l).Nodup := by
  induction l with
  | nil => simp [dedupF]
  | cons x xs ih =>
    refine List.Nodup.cons ?_ (List.Nodup.filter _ ih)
    intro hx
    have := (List.mem_filter.mp hx).2
    simp at this

theorem dedupF_snoc_not_mem {α : Type} [DecidableEq α] (l : List α) (a : α)
    (h : a ∉ l) : dedupF (l ++ [a]) = dedupF l ++ [a] := by
  induction l with
  | nil => simp [dedupF]
  | cons x xs ih =>
    simp only [List.mem_cons, not_or] at h
    have step1 : dedupF ((x :: xs) ++ [a])
        = x :: (dedupF (xs ++ [a])).filter (fun y => decide (y ≠ x)) := rfl
    rw [step1, ih h.2, List.filter_append]
    have step2 : [a].filter (fun y => decide (y ≠ x)) = [a] := by
      simp [List.filter, h.1]
    rw [step2]
    rfl

theorem dedupF_snoc_mem {α : Type} [DecidableEq α] (l : List α) (a : α)
    (h : a ∈ l) : dedupF (l ++ [a]) = dedupF l := by
  induction l with
  | nil => simp at h
  | cons x xs ih =>
    simp only [List.mem_cons] at h
    by_cases hx : a ∈ xs
    · have step1 : dedupF ((x :: xs) ++ [a])
          = x :: (dedupF (xs ++ [a])).filter (fun y => decide (y ≠ x)) := rfl
      rw [step1, ih hx]
      rfl
    · rcases h with h | h
      · subst h
        have step1 : dedupF ((a :: xs) ++ [a])
            = a :: (dedupF (xs ++ [a])).filter (fun y => decide (y ≠ a)) := rfl
        rw [step1, dedupF_snoc_not_mem xs a hx, List.filter_append]
        have step2 : [a].filter (fun y => decide (y ≠ a)) = [] := by
          simp [List.filter]
        rw [step2, List.append_nil]
        rfl
      · exact absurd h hx

theorem onlyIn_eq_nil_iff (a b : List Tup) :
    onlyIn a b = [] ↔ ∀ t ∈ a, t ∈ b := by
  simp only [onlyIn, List.filter_eq_nil_iff, decide_eq_true_eq, not_not]

theorem mem_onlyIn (t : Tup) (a b : List Tup) :
    t ∈ onlyIn a b ↔ t ∈ a ∧ t ∉ b := by
  simp only [onlyIn, List.mem_filter, decide_eq_true_eq]

/-- `compare_sets` only looks at the two sets. -/
theorem compare_sets_eq_of_sets (name : String) (csv1 csv2 : List Row)
    (gas1 gas2 : List PyJ) (fm : List (String × String)) (ig : List String)
    (hc : csvSet ig fm csv1 = csvSet ig fm csv2)
    (hg : gasSet ig fm gas1 = gasSet ig fm gas2) :
    compare_sets name csv1 gas1 fm ig = compare_sets name csv2 gas2 fm ig := by
  unfold compare_sets
  rw [hc, hg]

/-- Data of an append whose left part starts with a known character. -/
theorem data_append_cons (p s : String) (c : Char) (cp : List Char)
    (hp : p.data = c :: cp) : (p ++ s).data = c :: (cp ++ s.data) := by
  rw [String.data_append, hp]
  rfl

/-- Two strings whose data start with different characters differ. -/
theorem ne_of_data_heads (a q : String) (c c2 : Char) (ca cq : List Char)
    (ha : a.data = c :: ca) (hq : q.data = c2 :: cq) (hne : c ≠ c2) :
    a ≠ q := by
  intro h
  rw [h, hq] at ha
  injection ha with h1
  exact hne h1.symm

/-- The `MATCH` line never coincides with a line built from a prefix that
starts with a different character. -/
theorem match_ne_append (pre tail : String) (c : Char) (cp : List Char)
    (hp : pre.data = c :: cp) (hc : 'M' ≠ c) :
    "MATCH: Data sets are identical (for compared fields)." ≠ pre ++ tail :=
  ne_of_data_heads _ _ 'M' c _ _ rfl (data_append_cons pre tail c cp hp) hc

/-- An element of a conditional singleton is that singleton's element. -/
theorem mem_ite_singleton {α : Type} (a x : α) (c : Prop) [Decidable c]
    (h : a ∈ (if c then [x] else [])) : a = x := by
  by_cases hc : c
  · rw [if_pos hc] at h
    exact List.mem_singleton.mp h
  · rw [if_neg hc] at h
    exact absurd h (List.not_mem_nil a)

/-- `compare_sets` unfolded into its report lines. -/
theorem compare_sets_eq (name : String) (csv_rows : List Row)
    (gas_rows : List PyJ) (fm : List (String × String)) (ig : List String) :
    compare_sets name csv_rows gas_rows fm ig =
      ("== " ++ name ++ " ==") ::
      ("CSV count: " ++ toString (csvSet ig fm csv_rows).length
        ++ ", GAS count: " ++ toString (gasSet ig fm gas_rows).length) ::
      ((if (onlyIn (csvSet ig fm csv_rows) (gasSet ig fm gas_rows)).isEmpty
          && (onlyIn (gasSet ig fm gas_rows) (csvSet ig fm csv_rows)).isEmpty then
          ["MATCH: Data sets are identical (for compared fields)."]
        else
          (if !(onlyIn (csvSet ig fm csv_rows) (gasSet ig fm gas_rows)).isEmpty then
            ["Only in CSV ("
              ++ toString (onlyIn (csvSet ig fm csv_rows) (gasSet ig fm gas_rows)).length
              ++ "): sample -> "
              ++ reprSample ((onlyIn (csvSet ig fm csv_rows) (gasSet ig fm gas_rows)).take 3)]
          else [])
          ++ (if !(onlyIn (gasSet ig fm gas_rows) (csvSet ig fm csv_rows)).isEmpty then
            ["Only in GAS ("
              ++ toString (onlyIn (gasSet ig fm gas_rows) (csvSet ig fm csv_rows)).length
              ++ "): sample -> "
              ++ reprSample ((onlyIn (gasSet ig fm gas_rows) (csvSet ig fm csv_rows)).take 3)]
          else []))
        ++ [""]) := rfl

/-- The `loadLoop` never fires when the document is not a dict. -/
theorem loadLoop_of_not_dict (data : PyJ) (ks : List String)
    (h : ∀ d, data ≠ PyJ.jdict d) : loadLoop data ks = Option.none := by
  induction ks with
  | nil => rfl
  | cons k ks ih =>
    cases data with
    | jdict d => exact absurd rfl (h d)
    | null => exact ih
    | jbool b => exact ih
    | jstr s => exact ih
    | jint n => exact ih
    | jlist l => exact ih

/-- On a dict, `loadLoop` computes the spec's first-list-valued-key search. -/
theorem loadLoop_dict (d : List (String × PyJ)) (ks : List String) :
    loadLoop (PyJ.jdict d) ks = firstListKey d ks := by
  induction ks with
  | nil => rfl
  | cons k ks ih =>
    simp only [loadLoop, firstListKey]
    cases hk : d.lookup k with
    | none => exact ih
    | some v => cases v <;> simp [ih]

/-- When no recognized key holds a list, the key search fails. -/
theorem firstListKey_eq_none (d : List (String × PyJ)) (ks : List String)
    (h : (ks.any (fun k =>
        match d.lookup k with
        | some (PyJ.jlist _) => true
        | _ => false)) = false) :
    firstListKey d ks = Option.none := by
  induction ks with
  | nil => rfl
  | cons k ks ih =>
    rw [List.any_cons, Bool.or_eq_false_iff] at h
    simp only [firstListKey]
    cases hk : d.lookup k with
    | none => exact ih h.2
    | some v =>
      cases v with
      | jlist l =>
        exfalso
        rw [hk] at h
        simp at h
      | null => exact ih h.2
      | jbool b => exact ih h.2
      | jstr s => exact ih h.2
      | jint n => exact ih h.2
      | jdict d2 => exact ih h.2

/-- The branches of `tupleEntry`, spelled out (the two `row.get` reads are
identical, so the `is_csv` flag is irrelevant). -/
theorem tupleEntry_eq (ig : List String) (row : Row) (b : Bool)
    (out src : String) :
    tupleEntry ig row b (out, src) =
      if out ∈ ig then Option.none
      else if out = "active" then
        some (out, norm_bool ((row.lookup src).getD (PyJ.jstr "")))
      else some (out, NVal.nstr (norm_str ((row.lookup src).getD (PyJ.jstr "")))) := by
  cases b <;> rfl

/-- Keys other than the assigned one read the same after `setItem` (map
branch: keys are preserved). -/
theorem lookup_map_setKey (k k2 : String) (v : PyJ) (r : Row) (h : k2 ≠ k) :
    (r.map (fun p => if p.1 = k then (k, v) else p)).lookup k2 = r.lookup k2 := by
  induction r with
  | nil => rfl
  | cons p rest ih =>
    simp only [List.map_cons]
    by_cases hp : p.1 = k
    · have e1 : (k2 == k) = false := by simp [h]
      have e2 : (k2 == p.1) = false := by rw [hp]; exact e1
      rw [if_pos hp]
      simp only [List.lookup, e1, e2]
      exact ih
    · rw [if_neg hp]
      simp only [List.lookup]
      cases hb : k2 == p.1 <;> simp [ih]

/-- Keys other than the assigned one read the same after `setItem` (append
branch: the new entry has a different key). -/
theorem lookup_append_single (k k2 : String) (v : PyJ) (r : Row) (h : k2 ≠ k) :
    (r ++ [(k, v)]).lookup k2 = r.lookup k2 := by
  induction r with
  | nil =>
    have e1 : (k2 == k) = false := by simp [h]
    simp [List.lookup, e1]
  | cons p rest ih =>
    simp only [List.cons_append, List.lookup]
    cases hb : k2 == p.1 <;> simp [ih]

/-- Assigning an unrelated key leaves every other lookup unchanged. -/
theorem lookup_setItem_ne (r : Row) (k : String) (v : PyJ) (k2 : String)
    (h : k2 ≠ k) : (setItem r k v).lookup k2 = r.lookup k2 := by
  unfold setItem
  by_cases hany : r.any (fun p => decide (p.1 = k)) = true
  · rw [if_pos hany]
    exact lookup_map_setKey k k2 v r h
  · rw [if_neg hany]
    exact lookup_append_single k k2 v r h

/-- Blank rows inserted anywhere in the CSV input do not change the CSV
comparison set. -/
theorem csvSet_middle_blank (ig : List String) (fm : List (String × String))
    (before extras after : List Row)
    (h : ∀ r ∈ extras, rowNonEmpty r = false) :
    csvSet ig fm (before ++ extras ++ after) = csvSet ig fm (before ++ after) := by
  unfold csvSet
  have he : extras.filter rowNonEmpty = [] := by
    rw [List.filter_eq_nil_iff]
    intro a ha
    simp [h a ha]
  rw [List.filter_append, List.filter_append, he, List.append_nil,
    ← List.filter_append]

/-- Blank dict rows inserted anywhere in the JSON input do not change the
JSON comparison set. -/
theorem gasSet_middle_blank (ig : List String) (fm : List (String × String))
    (gbefore gextras gafter : List PyJ)
    (h : ∀ e ∈ gextras, ∃ d, e = PyJ.jdict d ∧ rowNonEmpty d = false) :
    gasSet ig fm (gbefore ++ gextras ++ gafter)
      = gasSet ig fm (gbefore ++ gafter) := by
  unfold gasSet
  have he : (gextras.filterMap asDictRow).filter rowNonEmpty = [] := by
    rw [List.filter_eq_nil_iff]
    intro d hd
    rw [List.mem_filterMap] at hd
    obtain ⟨e, hmem, hde⟩ := hd
    obtain ⟨d0, rfl, hblank⟩ := h e hmem
    simp only [asDictRow, Option.some.injEq] at hde
    rw [← hde]
    simp [hblank]
  rw [List.filterMap_append, List.filterMap_append, List.filter_append,
    List.filter_append, he, List.append_nil, ← List.filter_append,
    ← List.filterMap_append]

/-- Appending a duplicate of a CSV row leaves the CSV comparison set
unchanged. -/
theorem csvSet_snoc_dup (ig : List String) (fm : List (String × String))
    (rows : List Row) (r : Row) (h : r ∈ rows) :
    csvSet ig fm (rows ++ [r]) = csvSet ig fm rows := by
  unfold csvSet
  rw [List.filter_append]
  by_cases hp : rowNonEmpty r = true
  · have hr : [r].filter rowNonEmpty = [r] := by simp [hp]
    rw [hr, List.map_append]
    exact dedupF_snoc_mem _ _
      (List.mem_map_of_mem _ (List.mem_filter_of_mem h hp))
  · have hr : [r].filter rowNonEmpty = [] := by
      rw [List.filter_eq_nil_iff]
      intro a ha
      rw [List.mem_singleton] at ha
      rw [ha]
      exact hp
    rw [hr, List.append_nil]

/-- Appending a duplicate of a JSON entry leaves the JSON comparison set
unchanged. -/
theorem gasSet_snoc_dup (ig : List String) (fm : List (String × String))
    (rows : List PyJ) (e : PyJ) (h : e ∈ rows) :
    gasSet ig fm (rows ++ [e]) = gasSet ig fm rows := by
  unfold gasSet
  rw [List.filterMap_append]
  cases hd : asDictRow e with
  | none =>
    have : [e].filterMap asDictRow = [] := by simp [hd]
    rw [this, List.append_nil]
  | some d =>
    have hsing : [e].filterMap asDictRow = [d] := by simp [hd]
    rw [hsing, List.filter_append]
    by_cases hp : rowNonEmpty d = true
    · have hr : [d].filter rowNonEmpty = [d] := by simp [hp]
      rw [hr, List.map_append]
      refine dedupF_snoc_mem _ _ (List.mem_map_of_mem _ (List.mem_filter_of_mem ?_ hp))
      exact List.mem_filterMap.mpr ⟨e, h, hd⟩
    · have hr : [d].filter rowNonEmpty = [] := by
        rw [List.filter_eq_nil_iff]
        intro a ha
        rw [List.mem_singleton] at ha
        rw [ha]
        exact hp
      rw [hr, List.append_nil]

/-! ## The claims -/

/-- C2 counterexample: the claim says an unrecognized input comes back as
the original string unchanged, but `norm_bool` returns
`str(v).strip().lower()`: on input `"MayBe"` the result is `"maybe"`, not
the original `"MayBe"`. -/
theorem c2_counterexample :
    norm_bool (PyJ.jstr "MayBe") ≠ NVal.nstr "MayBe" := by decide

/-- C2 (amended): `norm_bool` passes booleans through, maps `None` to
`False`, maps any string whose stripped lower-cased form is
`"true"/"yes"/"1"` to `True` and `"false"/"no"/"0"/""` to `False`, and for
any other string returns the stripped, lower-cased string (so `"maybe"`
comes back as `"maybe"`, but not the original spelling in general). -/
theorem c2_norm_bool :
    (∀ b, norm_bool (PyJ.jbool b) = NVal.nbool b)
    ∧ norm_bool PyJ.null = NVal.nbool false
    ∧ (∀ s : String, pyLower (pyStrip s) ∈ ["true", "yes", "1"] →
        norm_bool (PyJ.jstr s) = NVal.nbool true)
    ∧ (∀ s : String, pyLower (pyStrip s) ∈ ["false", "no", "0", ""] →
        norm_bool (PyJ.jstr s) = NVal.nbool false)
    ∧ (∀ s : String,
        pyLower (pyStrip s) ∉ ["true", "yes", "1", "false", "no", "0", ""] →
        norm_bool (PyJ.jstr s) = NVal.nstr (pyLower (pyStrip s))) := by
  refine ⟨fun b => rfl, rfl, ?_, ?_, ?_⟩
  · intro s h
    simp only [List.mem_cons, List.not_mem_nil, or_false] at h
    simp only [norm_bool, pyStr]
    rw [if_pos h]
  · intro s h
    simp only [List.mem_cons, List.not_mem_nil, or_false] at h
    have h1 : ¬(pyLower (pyStrip s) = "true" ∨ pyLower (pyStrip s) = "yes"
        ∨ pyLower (pyStrip s) = "1") := by
      rintro (h1 | h1 | h1) <;> rw [h1] at h <;> revert h <;> decide
    simp only [norm_bool, pyStr]
    rw [if_neg h1, if_pos h]
  · intro s h
    simp only [List.mem_cons, List.not_mem_nil, or_false, not_or] at h
    obtain ⟨e1, e2, e3, e4, e5, e6, e7⟩ := h
    have h1 : ¬(pyLower (pyStrip s) = "true" ∨ pyLower (pyStrip s) = "yes"
        ∨ pyLower (pyStrip s) = "1") := by tauto
    have h2 : ¬(pyLower (pyStrip s) = "false" ∨ pyLower (pyStrip s) = "no"
        ∨ pyLower (pyStrip s) = "0" ∨ pyLower (pyStrip s) = "") := by tauto
    simp only [norm_bool, pyStr]
    rw [if_neg h1, if_neg h2]

/-- Witness for C2: `" Yes "` maps to `True`; `"MayBe"` maps to the stripped
lower-cased string `"maybe"`. -/
theorem c2_norm_bool_witness :
    norm_bool (PyJ.jstr " Yes ") = NVal.nbool true
    ∧ norm_bool (PyJ.jstr "MayBe") = NVal.nstr "maybe" := by
  refine ⟨c2_norm_bool.2.2.1 " Yes " (by decide), ?_⟩
  have h := c2_norm_bool.2.2.2.2 "MayBe" (by decide)
  rw [h]
  decide

/-- C3: the loader returns the value of the first key among
`data`, `tasks`, `sessions`, `subjects`, `categories` (in that order) whose
value in the root dict is a list; failing that, a root-level list is
returned as-is, and anything else yields `[]`. -/
theorem c3_loader_first_array (data : PyJ) :
    load_json_first_array data = load_json_first_array_spec data := by
  cases data with
  | jdict d =>
    simp only [load_json_first_array, load_json_first_array_spec, loadLoop_dict]
    cases firstListKey d jsonArrayKeys <;> rfl
  | jlist l => rfl
  | null => rfl
  | jbool b => rfl
  | jstr s => rfl
  | jint n => rfl

/-- C8: a document that parses but is neither a root list nor a dict with a
recognized list-valued key loads as the empty list — no failure — so the
table is compared against an empty set. -/
theorem c8_loader_silent_empty (data : PyJ)
    (h1 : isRootList data = false)
    (h2 : hasRecognizedListKey data = false) :
    load_json_first_array data = []
    ∧ ∀ ig fm, gasSet ig fm (load_json_first_array data) = [] := by
  have hload : load_json_first_array data = [] := by
    cases data with
    | jlist l => simp [isRootList] at h1
    | jdict d =>
      have hkey : firstListKey d jsonArrayKeys = Option.none :=
        firstListKey_eq_none d jsonArrayKeys h2
      simp [load_json_first_array, loadLoop_dict, hkey]
    | null => rfl
    | jbool b => rfl
    | jstr s => rfl
    | jint n => rfl
  refine ⟨hload, fun ig fm => ?_⟩
  rw [hload]
  rfl

/-- Witness for C8: `{"foo": [...]}` has no recognized key, loads as `[]`,
and produces an empty comparison set. -/
theorem c8_witness :
    load_json_first_array (PyJ.jdict [("foo", PyJ.jlist [PyJ.jstr "a"])]) = []
    ∧ gasSet [] subjects_field_map
        (load_json_first_array (PyJ.jdict [("foo", PyJ.jlist [PyJ.jstr "a"])])) = [] := by
  have h := c8_loader_silent_empty (PyJ.jdict [("foo", PyJ.jlist [PyJ.jstr "a"])])
    (by decide) (by decide)
  exact ⟨h.1, h.2 [] subjects_field_map⟩

/-- C4: rows whose raw values are all falsy contribute no tuple to their
side's comparison set, so inserting any number of blank rows on either side
leaves the whole report for the table — sets, counts, match status —
unchanged. -/
theorem c4_blank_rows (name : String) (fm : List (String × String))
    (ig : List String) :
    (∀ (before after extras : List Row) (gas_rows : List PyJ),
      (∀ r ∈ extras, rowNonEmpty r = false) →
      compare_sets name (before ++ extras ++ after) gas_rows fm ig
        = compare_sets name (before ++ after) gas_rows fm ig)
    ∧ (∀ (csv_rows : List Row) (gbefore gafter gextras : List PyJ),
      (∀ e ∈ gextras, ∃ d, e = PyJ.jdict d ∧ rowNonEmpty d = false) →
      compare_sets name csv_rows (gbefore ++ gextras ++ gafter) fm ig
        = compare_sets name csv_rows (gbefore ++ gafter) fm ig) := by
  constructor
  · intro before after extras gas_rows h
    exact compare_sets_eq_of_sets name _ _ _ _ fm ig
      (csvSet_middle_blank ig fm before extras after h) rfl
  · intro csv_rows gbefore gafter gextras h
    exact compare_sets_eq_of_sets name _ _ _ _ fm ig rfl
      (gasSet_middle_blank ig fm gbefore gextras gafter h)

/-- Witness for C4: two blank CSV rows and one blank JSON dict row change
nothing in the Subjects report. -/
theorem c4_witness :
    compare_sets "Subjects" ([csvRowMath] ++ [blankRow, blankRow] ++ [])
        [PyJ.jdict gasRowMath] subjects_field_map []
      = compare_sets "Subjects" ([csvRowMath] ++ [])
        [PyJ.jdict gasRowMath] subjects_field_map []
    ∧ compare_sets "Subjects" [csvRowMath]
        ([] ++ [PyJ.jdict blankRow] ++ [PyJ.jdict gasRowMath]) subjects_field_map []
      = compare_sets "Subjects" [csvRowMath]
        ([] ++ [PyJ.jdict gasRowMath]) subjects_field_map [] := by
  refine ⟨(c4_blank_rows "Subjects" subjects_field_map []).1
      [csvRowMath] [] [blankRow, blankRow] [PyJ.jdict gasRowMath] (by decide),
    (c4_blank_rows "Subjects" subjects_field_map []).2
      [csvRowMath] [] [PyJ.jdict gasRowMath] [PyJ.jdict blankRow] ?_⟩
  intro e he
  rw [List.mem_singleton] at he
  exact ⟨blankRow, he, by decide⟩

/-- C6: appending a duplicate of an existing row on either side leaves both
comparison sets, hence the reported cardinalities, differences and
match/mismatch status, unchanged — multiplicity is never tracked. -/
theorem c6_duplicates (name : String) (fm : List (String × String))
    (ig : List String) :
    (∀ (csv_rows : List Row) (gas_rows : List PyJ) (r : Row), r ∈ csv_rows →
      compare_sets name (csv_rows ++ [r]) gas_rows fm ig
        = compare_sets name csv_rows gas_rows fm ig)
    ∧ (∀ (csv_rows : List Row) (gas_rows : List PyJ) (e : PyJ), e ∈ gas_rows →
      compare_sets name csv_rows (gas_rows ++ [e]) fm ig
        = compare_sets name csv_rows gas_rows fm ig) := by
  constructor
  · intro csv_rows gas_rows r h
    exact compare_sets_eq_of_sets name _ _ _ _ fm ig
      (csvSet_snoc_dup ig fm csv_rows r h) rfl
  · intro csv_rows gas_rows e h
    exact compare_sets_eq_of_sets name _ _ _ _ fm ig rfl
      (gasSet_snoc_dup ig fm gas_rows e h)

/-- Witness for C6: duplicating the Math row on either side leaves the
Subjects report unchanged. -/
theorem c6_witness :
    compare_sets "Subjects" ([csvRowMath] ++ [csvRowMath])
        [PyJ.jdict gasRowMath] subjects_field_map []
      = compare_sets "Subjects" [csvRowMath]
        [PyJ.jdict gasRowMath] subjects_field_map []
    ∧ compare_sets "Subjects" [csvRowMath]
        ([PyJ.jdict gasRowMath] ++ [PyJ.jdict gasRowMath]) subjects_field_map []
      = compare_sets "Subjects" [csvRowMath]
        [PyJ.jdict gasRowMath] subjects_field_map [] :=
  ⟨(c6_duplicates "Subjects" subjects_field_map []).1
      [csvRowMath] [PyJ.jdict gasRowMath] csvRowMath (List.mem_cons_self _ _),
   (c6_duplicates "Subjects" subjects_field_map []).2
      [csvRowMath] [PyJ.jdict gasRowMath] (PyJ.jdict gasRowMath)
      (List.mem_cons_self _ _)⟩

/-- C10: a JSON-side list entry that is not a dict is silently skipped — it
contributes nothing to the JSON comparison set and the report is as if it
were absent. -/
theorem c10_non_dict_skipped (name : String) (csv_rows : List Row)
    (gbefore gafter : List PyJ) (e : PyJ) (fm : List (String × String))
    (ig : List String) (h : asDictRow e = Option.none) :
    gasSet ig fm (gbefore ++ e :: gafter) = gasSet ig fm (gbefore ++ gafter)
    ∧ compare_sets name csv_rows (gbefore ++ e :: gafter) fm ig
        = compare_sets name csv_rows (gbefore ++ gafter) fm ig := by
  have hset : gasSet ig fm (gbefore ++ e :: gafter)
      = gasSet ig fm (gbefore ++ gafter) := by
    unfold gasSet
    rw [List.filterMap_append, List.filterMap_cons, h,
      List.filterMap_append]
  exact ⟨hset, compare_sets_eq_of_sets name _ _ _ _ fm ig rfl hset⟩

/-- C5: `norm_bool` maps CSV `"yes"` and JSON `true` to the same value, and
`active` is the only field normalized with `norm_bool`, so two rows whose
non-active mapped fields stringify identically and whose active fields are
`"yes"` and `true` build equal normalized tuples. -/
theorem c5_active_bool_equivalence (ig : List String)
    (mapping : List (String × String)) (rc rj : Row)
    (h : ∀ p ∈ mapping,
      (p.1 = "active" →
        (rc.lookup p.2).getD (PyJ.jstr "") = PyJ.jstr "yes"
        ∧ (rj.lookup p.2).getD (PyJ.jstr "") = PyJ.jbool true)
      ∧ (p.1 ≠ "active" →
        norm_str ((rc.lookup p.2).getD (PyJ.jstr ""))
          = norm_str ((rj.lookup p.2).getD (PyJ.jstr "")))) :
    norm_bool (PyJ.jstr "yes") = norm_bool (PyJ.jbool true)
    ∧ ∀ b1 b2, row_to_tuple ig rc mapping b1 = row_to_tuple ig rj mapping b2 := by
  refine ⟨by decide, fun b1 b2 => ?_⟩
  unfold row_to_tuple
  refine List.filterMap_congr ?_
  intro p hp
  obtain ⟨out, src⟩ := p
  rw [tupleEntry_eq, tupleEntry_eq]
  by_cases hig : out ∈ ig
  · rw [if_pos hig, if_pos hig]
  · rw [if_neg hig, if_neg hig]
    by_cases hact : out = "active"
    · rw [if_pos hact, if_pos hact]
      obtain ⟨hc, hj⟩ := (h (out, src) hp).1 hact
      rw [hc, hj]
      have h1 : norm_bool (PyJ.jstr "yes") = NVal.nbool true := by decide
      rw [h1]
      rfl
    · rw [if_neg hact, if_neg hact, (h (out, src) hp).2 hact]

/-- Witness for C5: the Math row with `active = "yes"` and the Math row with
`active = true` build the same tuple. -/
theorem c5_witness :
    norm_bool (PyJ.jstr "yes") = norm_bool (PyJ.jbool true)
    ∧ row_to_tuple [] csvRowMath subjects_field_map true
        = row_to_tuple [] gasRowMath subjects_field_map false := by
  have h := c5_active_bool_equivalence [] subjects_field_map csvRowMath gasRowMath ?_
  · exact ⟨h.1, h.2 true false⟩
  · intro p hp
    fin_cases hp
    · exact ⟨fun hh => absurd hh (by decide), fun _ => rfl⟩
    · exact ⟨fun hh => absurd hh (by decide), fun _ => rfl⟩
    · exact ⟨fun hh => absurd hh (by decide), fun _ => rfl⟩
    · exact ⟨fun _ => ⟨rfl, rfl⟩, fun hh => absurd rfl hh⟩

/-- C7: `date` is not a source key of the StudySessions field map, and
changing the value of any column that is not a source key of the field map
leaves the row's normalized tuple — and, as long as the row stays
non-empty, the whole report — unchanged. -/
theorem c7_unmapped_columns :
    (∀ p ∈ study_sessions_field_map, p.2 ≠ "date")
    ∧ (∀ (ig : List String) (fm : List (String × String)) (r : Row)
        (k : String) (v : PyJ) (b : Bool),
        (∀ p ∈ fm, p.2 ≠ k) →
        row_to_tuple ig (setItem r k v) fm b = row_to_tuple ig r fm b)
    ∧ (∀ (name : String) (csv_before csv_after : List Row) (r : Row)
        (k : String) (v : PyJ) (gas_rows : List PyJ)
        (fm : List (String × String)) (ig : List String),
        (∀ p ∈ fm, p.2 ≠ k) →
        rowNonEmpty r = true → rowNonEmpty (setItem r k v) = true →
        compare_sets name (csv_before ++ setItem r k v :: csv_after) gas_rows fm ig
          = compare_sets name (csv_before ++ r :: csv_after) gas_rows fm ig) := by
  have tup : ∀ (ig : List String) (fm : List (String × String)) (r : Row)
      (k : String) (v : PyJ) (b : Bool),
      (∀ p ∈ fm, p.2 ≠ k) →
      row_to_tuple ig (setItem r k v) fm b = row_to_tuple ig r fm b := by
    intro ig fm r k v b h
    unfold row_to_tuple
    refine List.filterMap_congr ?_
    intro p hp
    obtain ⟨out, src⟩ := p
    rw [tupleEntry_eq, tupleEntry_eq,
      lookup_setItem_ne r k v src (h (out, src) hp)]
  refine ⟨by decide, tup, ?_⟩
  intro name csv_before csv_after r k v gas_rows fm ig h h1 h2
  refine compare_sets_eq_of_sets name _ _ _ _ fm ig ?_ rfl
  unfold csvSet
  rw [List.filter_append, List.filter_append,
    List.filter_cons_of_pos h2, List.filter_cons_of_pos h1,
    List.map_append, List.map_append, List.map_cons, List.map_cons,
    tup ig fm r k v true h]

/-- Witness for C7: changing the `date` value of a StudySessions row does
not change the report. -/
theorem c7_witness :
    compare_sets "StudySessions" [setItem dateRow "date" (PyJ.jstr "changed")]
        [] study_sessions_field_map []
      = compare_sets "StudySessions" [dateRow] [] study_sessions_field_map [] :=
  c7_unmapped_columns.2.2 "StudySessions" [] [] dateRow "date"
    (PyJ.jstr "changed") [] study_sessions_field_map []
    (by decide) (by decide) (by decide)

/-- C9: a mapped source key absent from the row reads as the default `""`:
a non-active field contributes `(out, "")`, the `active` field contributes
`(active, False)` — the same entry a row with `active = False` contributes. -/
theorem c9_missing_key_defaults (ig : List String) (r : Row) (src : String)
    (b : Bool) (hne : rowNonEmpty r = true) (h : r.lookup src = Option.none) :
    (∀ out, out ∉ ig → out ≠ "active" →
      tupleEntry ig r b (out, src) = some (out, NVal.nstr ""))
    ∧ ("active" ∉ ig →
      tupleEntry ig r b ("active", src) = some ("active", NVal.nbool false))
    ∧ (∀ r2 : Row, "active" ∉ ig → r2.lookup src = some (PyJ.jbool false) →
      tupleEntry ig r2 b ("active", src) = tupleEntry ig r b ("active", src)) := by
  refine ⟨?_, ?_, ?_⟩
  · intro out hig hact
    rw [tupleEntry_eq, if_neg hig, if_neg hact, h]
    rfl
  · intro hig
    rw [tupleEntry_eq, if_neg hig, if_pos rfl, h]
    rfl
  · intro r2 hig h2
    rw [tupleEntry_eq, tupleEntry_eq, if_neg hig, if_neg hig,
      if_pos rfl, if_pos rfl, h, h2]
    rfl

/-- Witness for C9: a row holding only `subject_name` reads `""` for
`color` and `False` for `active`, matching an explicit `active = False`. -/
theorem c9_witness :
    tupleEntry [] [("subject_name", PyJ.jstr "Math")] true ("color", "active")
        = some ("color", NVal.nstr "")
    ∧ tupleEntry [] [("subject_name", PyJ.jstr "Math")] true ("active", "active")
        = some ("active", NVal.nbool false)
    ∧ tupleEntry [] [("active", PyJ.jbool false)] true ("active", "active")
        = tupleEntry [] [("subject_name", PyJ.jstr "Math")] true ("active", "active") := by
  have h := c9_missing_key_defaults [] [("subject_name", PyJ.jstr "Math")]
    "active" true (by decide) rfl
  exact ⟨h.1 "color" (by decide) (by decide), h.2.1 (by decide),
    h.2.2 [("active", PyJ.jbool false)] (by decide) rfl⟩

/-- C1: per table, the report carries a `MATCH` line iff the two sets of
normalized tuples have the same members; both set cardinalities are always
reported (the sets hold no duplicates); and each non-empty difference is
reported with its cardinality and at most 3 sample tuples, each present
only on that side. -/
theorem c1_report (name : String) (csv_rows : List Row) (gas_rows : List PyJ)
    (fm : List (String × String)) (ig : List String) :
    ("MATCH: Data sets are identical (for compared fields)."
        ∈ compare_sets name csv_rows gas_rows fm ig
      ↔ ∀ t, t ∈ csvSet ig fm csv_rows ↔ t ∈ gasSet ig fm gas_rows)
    ∧ ("CSV count: " ++ toString (csvSet ig fm csv_rows).length
        ++ ", GAS count: " ++ toString (gasSet ig fm gas_rows).length)
        ∈ compare_sets name csv_rows gas_rows fm ig
    ∧ (csvSet ig fm csv_rows).Nodup
    ∧ (gasSet ig fm gas_rows).Nodup
    ∧ (onlyIn (csvSet ig fm csv_rows) (gasSet ig fm gas_rows) ≠ [] →
        ("Only in CSV ("
            ++ toString (onlyIn (csvSet ig fm csv_rows) (gasSet ig fm gas_rows)).length
            ++ "): sample -> "
            ++ reprSample ((onlyIn (csvSet ig fm csv_rows) (gasSet ig fm gas_rows)).take 3))
          ∈ compare_sets name csv_rows gas_rows fm ig
        ∧ ((onlyIn (csvSet ig fm csv_rows) (gasSet ig fm gas_rows)).take 3).length ≤ 3
        ∧ ∀ t ∈ (onlyIn (csvSet ig fm csv_rows) (gasSet ig fm gas_rows)).take 3,
            t ∈ csvSet ig fm csv_rows ∧ t ∉ gasSet ig fm gas_rows)
    ∧ (onlyIn (gasSet ig fm gas_rows) (csvSet ig fm csv_rows) ≠ [] →
        ("Only in GAS ("
            ++ toString (onlyIn (gasSet ig fm gas_rows) (csvSet ig fm csv_rows)).length
            ++ "): sample -> "
            ++ reprSample ((onlyIn (gasSet ig fm gas_rows) (csvSet ig fm csv_rows)).take 3))
          ∈ compare_sets name csv_rows gas_rows fm ig
        ∧ ((onlyIn (gasSet ig fm gas_rows) (csvSet ig fm csv_rows)).take 3).length ≤ 3
        ∧ ∀ t ∈ (onlyIn (gasSet ig fm gas_rows) (csvSet ig fm csv_rows)).take 3,
            t ∈ gasSet ig fm gas_rows ∧ t ∉ csvSet ig fm csv_rows) := by
  have hl := compare_sets_eq name csv_rows gas_rows fm ig
  set cs := csvSet ig fm csv_rows with hcs
  set gs := gasSet ig fm gas_rows with hgs
  set oc := onlyIn cs gs with hoc
  set og := onlyIn gs cs with hog
  refine ⟨⟨?_, ?_⟩, ?_, ?_, ?_, ?_, ?_⟩
  · -- MATCH present → sets have the same members
    intro h
    by_cases hcond : (oc.isEmpty && og.isEmpty) = true
    · rw [Bool.and_eq_true, List.isEmpty_iff, List.isEmpty_iff] at hcond
      obtain ⟨hoc0, hog0⟩ := hcond
      have h1 := (onlyIn_eq_nil_iff cs gs).mp hoc0
      have h2 := (onlyIn_eq_nil_iff gs cs).mp hog0
      exact fun t => ⟨fun ht => h1 t ht, fun ht => h2 t ht⟩
    · exfalso
      rw [hl, if_neg hcond] at h
      rcases List.mem_cons.mp h with h | h
      · exact match_ne_append ("== " ++ name) " ==" '=' _
          (data_append_cons "== " name '=' _ rfl) (by decide) h
      rcases List.mem_cons.mp h with h | h
      · exact match_ne_append ("CSV count: " ++ toString cs.length)
          (", GAS count: " ++ toString gs.length) 'C' _
          (data_append_cons "CSV count: " _ 'C' _ rfl) (by decide)
          (by rw [h]; rw [String.append_assoc, String.append_assoc])
      rcases List.mem_append.mp h with h | h
      · rcases List.mem_append.mp h with h | h
        · have he := mem_ite_singleton _ _ _ h
          exact match_ne_append
            (("Only in CSV (" ++ toString oc.length) ++ "): sample -> ")
            (reprSample (oc.take 3)) 'O' _
            (data_append_cons ("Only in CSV (" ++ toString oc.length)
              "): sample -> " 'O' _
              (data_append_cons "Only in CSV (" _ 'O' _ rfl)) (by decide) he
        · have he := mem_ite_singleton _ _ _ h
          exact match_ne_append
            (("Only in GAS (" ++ toString og.length) ++ "): sample -> ")
            (reprSample (og.take 3)) 'O' _
            (data_append_cons ("Only in GAS (" ++ toString og.length)
              "): sample -> " 'O' _
              (data_append_cons "Only in GAS (" _ 'O' _ rfl)) (by decide) he
      · rw [List.mem_singleton] at h
        exact absurd h (by decide)
  · -- sets with the same members → MATCH present
    intro hiff
    have hoc0 : oc = [] := (onlyIn_eq_nil_iff cs gs).mpr (fun t ht => (hiff t).mp ht)
    have hog0 : og = [] := (onlyIn_eq_nil_iff gs cs).mpr (fun t ht => (hiff t).mpr ht)
    have hcond : (oc.isEmpty && og.isEmpty) = true := by rw [hoc0, hog0]; rfl
    rw [hl, if_pos hcond]
    simp
  · rw [hl]
    exact List.mem_cons_of_mem _ (List.mem_cons_self _ _)
  · exact nodup_dedupF _
  · exact nodup_dedupF _
  · -- non-empty CSV-only difference
    intro hne0
    have hocF : oc.isEmpty = false := by
      cases hE : oc.isEmpty with
      | false => rfl
      | true => exact absurd (List.isEmpty_iff.mp hE) hne0
    refine ⟨?_, ?_, ?_⟩
    · rw [hl]
      simp [hocF]
    · rw [List.length_take]
      exact min_le_left _ _
    · intro t ht
      exact (mem_onlyIn t cs gs).mp (List.take_subset 3 oc ht)
  · -- non-empty GAS-only difference
    intro hne0
    have hogF : og.isEmpty = false := by
      cases hE : og.isEmpty with
      | false => rfl
      | true => exact absurd (List.isEmpty_iff.mp hE) hne0
    refine ⟨?_, ?_, ?_⟩
    · rw [hl]
      simp [hogF]
    · rw [List.length_take]
      exact min_le_left _ _
    · intro t ht
      exact (mem_onlyIn t gs cs).mp (List.take_subset 3 og ht)

/-- Witness for C1: with `Math` only on the CSV side and `Physics` only on
the JSON side there is no `MATCH` line, and both `Only in` lines appear. -/
theorem c1_witness :
    "MATCH: Data sets are identical (for compared fields)."
        ∉ compare_sets "Subjects" [csvRowMath] [PyJ.jdict gasRowPhysics]
            subjects_field_map []
    ∧ ("Only in CSV ("
        ++ toString (onlyIn (csvSet [] subjects_field_map [csvRowMath])
            (gasSet [] subjects_field_map [PyJ.jdict gasRowPhysics])).length
        ++ "): sample -> "
        ++ reprSample ((onlyIn (csvSet [] subjects_field_map [csvRowMath])
            (gasSet [] subjects_field_map [PyJ.jdict gasRowPhysics])).take 3))
        ∈ compare_sets "Subjects" [csvRowMath] [PyJ.jdict gasRowPhysics]
            subjects_field_map []
    ∧ ("Only in GAS ("
        ++ toString (onlyIn (gasSet [] subjects_field_map [PyJ.jdict gasRowPhysics])
            (csvSet [] subjects_field_map [csvRowMath])).length
        ++ "): sample -> "
        ++ reprSample ((onlyIn (gasSet [] subjects_field_map [PyJ.jdict gasRowPhysics])
            (csvSet [] subjects_field_map [csvRowMath])).take 3))
        ∈ compare_sets "Subjects" [csvRowMath] [PyJ.jdict gasRowPhysics]
            subjects_field_map [] := by
  have h := c1_report "Subjects" [csvRowMath] [PyJ.jdict gasRowPhysics]
    subjects_field_map []
  refine ⟨?_, (h.2.2.2.2.1 (by decide)).1, (h.2.2.2.2.2 (by decide)).1⟩
  intro hm
  have h2 := (h.1).mp hm
  have h3 := (h2 (row_to_tuple [] csvRowMath subjects_field_map true)).mp (by decide)
  exact absurd h3 (by decide)

/-- Witness for C10: a stray string in the JSON array changes nothing in the
Subjects report. -/
theorem c10_witness :
    gasSet [] subjects_field_map
        ([PyJ.jdict gasRowMath] ++ PyJ.jstr "stray" :: [PyJ.jint 7])
      = gasSet [] subjects_field_map ([PyJ.jdict gasRowMath] ++ [PyJ.jint 7])
    ∧ compare_sets "Subjects" [csvRowMath]
        ([PyJ.jdict gasRowMath] ++ PyJ.jstr "stray" :: [PyJ.jint 7])
        subjects_field_map []
      = compare_sets "Subjects" [csvRowMath]
        ([PyJ.jdict gasRowMath] ++ [PyJ.jint 7]) subjects_field_map [] :=
  c10_non_dict_skipped "Subjects" [csvRowMath] [PyJ.jdict gasRowMath]
    [PyJ.jint 7] (PyJ.jstr "stray") subjects_field_map [] rfl

end CompareGas
